import Mathlib

/-!
Shallow embedding of the karpenter NodeClaim model (pkg/apis/v1/nodeclaim.go)
and the state informer NodeClaimController (informer package), with proofs
of the validation, reconciliation and concurrency properties stated in the
specification.
-/

/-- Node selector operator, the admissible values of
NodeSelectorRequirement.Operator. -/
inductive Operator where
  | In
  | NotIn
  | Exists
  | DoesNotExist
  | Gt
  | Lt
deriving DecidableEq, Repr

/-- A taint (key, value, effect) applied to the resulting node. -/
structure Taint where
  key : String
  value : String
  effect : String
deriving DecidableEq, Repr

/-- NodeClassReference from nodeclaim.go: kind, name and group, all required. -/
structure NodeClassReference where
  kind : String
  name : String
  group : String
deriving DecidableEq, Repr

/-- ResourceRequirements from nodeclaim.go: a resource list mapping resource
names to quantities (quantities kept in their serialized string form). -/
structure ResourceRequirements where
  requests : List (String × String)
deriving DecidableEq, Repr

/-- NodeSelectorRequirementWithMinValues from nodeclaim.go: an inlined
NodeSelectorRequirement (key, operator, values) together with the optional
MinValues pointer field. -/
structure NodeSelectorRequirementWithMinValues where
  key : String
  operator : Operator
  values : List String
  minValues : Option Int
deriving DecidableEq, Repr

/-- NodeClaimSpec from nodeclaim.go: taints, startupTaints, requirements,
resources and the required nodeClassRef. -/
structure NodeClaimSpec where
  taints : List Taint
  startupTaints : List Taint
  requirements : List NodeSelectorRequirementWithMinValues
  resources : ResourceRequirements
  nodeClassRef : NodeClassReference
deriving DecidableEq, Repr

/-- Modelled from the spec: NodeClaimStatus is not defined under src/; the
spec describes it as holding at minimum a node name, a provider identifier
and a set of conditions. -/
structure NodeClaimStatus where
  nodeName : String
  providerID : String
  conditions : List (String × String)
deriving DecidableEq, Repr

/-- NodeClaim: name (identity), immutable spec, mutable status. -/
structure NodeClaim where
  name : String
  spec : NodeClaimSpec
  status : NodeClaimStatus
deriving DecidableEq, Repr

/-- CEL string-to-int conversion, as used by int(x.values[0]) in the Gt/Lt
validation rule: base-10 parse with an optional leading sign, failing on an
empty or non-numeric string and on values outside the signed 64-bit range. -/
def celStringToInt (s : String) : Option Int :=
  let signDigits : Bool × List Char :=
    match s.data with
    | '-' :: rest => (true, rest)
    | '+' :: rest => (false, rest)
    | l => (false, l)
  let neg := signDigits.1
  let ds := signDigits.2
  if ds ≠ [] ∧ ds.all (fun c => c.isDigit) then
    let n : Nat := ds.foldl (fun acc c => 10 * acc + (c.toNat - 48)) 0
    let v : Int := if neg then -(n : Int) else (n : Int)
    if -(2 ^ 63) ≤ v ∧ v ≤ 2 ^ 63 - 1 then some v else none
  else none

/-- First XValidation rule on NodeClaimSpec.Requirements, per requirement:
requirements with operator In must have a value defined, i.e.
if the operator is In then values.size() is not 0, and true otherwise. -/
def celInRule (r : NodeSelectorRequirementWithMinValues) : Bool :=
  if r.operator = Operator.In then decide (r.values.length ≠ 0) else true

/-- The value-side condition of the Gt/Lt XValidation rule:
values.size() == 1 and int(values[0]) >= 0, where a conversion error makes
the rule fail. -/
def celGtLtValueOk (values : List String) : Bool :=
  decide (values.length = 1) &&
    (match values.head? with
     | some s =>
       match celStringToInt s with
       | some v => decide (0 ≤ v)
       | none => false
     | none => false)

/-- Second XValidation rule on NodeClaimSpec.Requirements, per requirement:
requirements with operator Gt or Lt must have a single non-negative integer
value, and true for any other operator. -/
def celGtLtRule (r : NodeSelectorRequirementWithMinValues) : Bool :=
  if r.operator = Operator.Gt ∨ r.operator = Operator.Lt then
    celGtLtValueOk r.values
  else true

/-- Third XValidation rule on NodeClaimSpec.Requirements, per requirement:
if the operator is In and minValues is set then values.size() must be at
least minValues, and true otherwise. -/
def celMinValuesRule (r : NodeSelectorRequirementWithMinValues) : Bool :=
  match r.minValues with
  | some m =>
    if r.operator = Operator.In then decide ((r.values.length : Int) ≥ m) else true
  | none => true

/-- The per-field schema bounds on MinValues: Minimum 1, Maximum 50. -/
def minValuesFieldOk (r : NodeSelectorRequirementWithMinValues) : Bool :=
  match r.minValues with
  | some m => decide (1 ≤ m ∧ m ≤ 50)
  | none => true

/-- Schema validation of NodeClaimSpec.Requirements: MaxItems 100, the three
XValidation rules and the MinValues field bounds must all hold. -/
def validateRequirements (reqs : List NodeSelectorRequirementWithMinValues) : Bool :=
  decide (reqs.length ≤ 100) &&
  reqs.all celInRule &&
  reqs.all celGtLtRule &&
  reqs.all celMinValuesRule &&
  reqs.all minValuesFieldOk

/-- Validation of a NodeClaimSpec: the only validation rules attached to the
spec in nodeclaim.go are those on the Requirements field. -/
def validateSpec (s : NodeClaimSpec) : Bool :=
  validateRequirements s.requirements

/-- The XValidation rule on NodeClaim.Spec: self == oldSelf, deep equality
of the proposed spec with the stored spec. -/
def specImmutableRuleHolds (oldSpec newSpec : NodeClaimSpec) : Bool :=
  decide (newSpec = oldSpec)

/-- Errors rejected at the write boundary for an update. -/
inductive UpdateError where
  | immutableField
deriving DecidableEq, Repr

/-- Modelled from the spec: the resource store write boundary for updates is
not under src/; the spec states that any update whose proposed spec is not
deep-equal to the stored spec is rejected with an ImmutableFieldError. The
deep-equality test itself is the rule from nodeclaim.go. -/
def applyUpdate (stored proposed : NodeClaim) : Except UpdateError NodeClaim :=
  if specImmutableRuleHolds stored.spec proposed.spec then
    Except.ok proposed
  else
    Except.error UpdateError.immutableField

/-- The stored NodeClaim after an update attempt: unchanged when the update
is rejected, replaced by the proposed value when accepted. -/
def storedAfterUpdate (stored proposed : NodeClaim) : NodeClaim :=
  match applyUpdate stored proposed with
  | Except.ok nc => nc
  | Except.error _ => stored

/-- Outcome of the fetch (kubeClient.Get) at the start of a reconciliation
cycle: the NodeClaim was found, a not-found error, or any other error. -/
inductive GetOutcome where
  | found (nc : NodeClaim)
  | notFound
  | failure (e : String)
deriving DecidableEq, Repr

/-- errors.IsNotFound on a fetch outcome. -/
def isNotFound : GetOutcome → Bool
  | GetOutcome.notFound => true
  | _ => false

/-- client.IgnoreNotFound: drops a not-found error, keeps any other. -/
def ignoreNotFound : GetOutcome → Option String
  | GetOutcome.failure e => some e
  | _ => none

/-- Operations the controller performs on the kube client (resource store). -/
inductive KubeOp where
  | get (name : String)
  | create (nc : NodeClaim)
  | update (nc : NodeClaim)
  | updateStatus (nc : NodeClaim)
  | delete (name : String)
deriving DecidableEq, Repr

/-- Operations the controller performs on the cluster state store. -/
inductive ClusterOp where
  | deleteNodeClaim (name : String)
  | updateNodeClaim (nc : NodeClaim)
deriving DecidableEq, Repr

/-- Whether a cluster state operation is the upsert. -/
def isUpsert : ClusterOp → Bool
  | ClusterOp.updateNodeClaim _ => true
  | _ => false

/-- Whether a kube client operation writes to the resource store. -/
def isKubeWrite : KubeOp → Bool
  | KubeOp.get _ => false
  | _ => true

/-- reconcile.Result: an optional requeue delay. -/
structure ReconcileResult where
  requeueAfter : Option Nat
deriving DecidableEq, Repr

/-- Modelled from the spec: the stateRetryPeriod constant is declared outside
src/; the spec only requires a fixed bounded delay for the periodic resync. -/
def stateRetryPeriod : Nat := 60

/-- The observable outcome of one reconciliation cycle: the operations issued
to the kube client and to the cluster state store, the returned result and
the returned error. -/
structure ReconcileOutcome where
  kubeOps : List KubeOp
  clusterOps : List ClusterOp
  result : ReconcileResult
  error : Option String
deriving DecidableEq, Repr

/-- NodeClaimController.Reconcile from the informer package, as a function of
the fetch outcome for the requested name: on a fetch error it deletes the
NodeClaim from cluster state when the error is not-found, and returns an
empty result with the error filtered through IgnoreNotFound; on success it
upserts the fetched NodeClaim into cluster state and returns a result that
requeues after stateRetryPeriod with no error. The only kube client call is
the initial Get. -/
def reconcile (name : String) (fetch : GetOutcome) : ReconcileOutcome :=
  match fetch with
  | GetOutcome.found nc =>
    { kubeOps := [KubeOp.get name]
      clusterOps := [ClusterOp.updateNodeClaim nc]
      result := { requeueAfter := some stateRetryPeriod }
      error := none }
  | g =>
    { kubeOps := [KubeOp.get name]
      clusterOps := if isNotFound g then [ClusterOp.deleteNodeClaim name] else []
      result := { requeueAfter := none }
      error := ignoreNotFound g }

/-- Controller registration options from NodeClaimController.Register:
the controller is named state.nodeclaim and registered with
MaxConcurrentReconciles 10. -/
structure ControllerOptions where
  controllerName : String
  maxConcurrentReconciles : Nat
deriving DecidableEq, Repr

/-- The options NodeClaimController.Register passes to the manager. -/
def registerOptions : ControllerOptions :=
  { controllerName := "state.nodeclaim", maxConcurrentReconciles := 10 }

/-- State of the worker pool running reconciliation cycles: the keys with a
cycle currently in flight. -/
structure PoolState where
  inflight : List String
deriving DecidableEq, Repr

/-- The worker pool before any cycle has started. -/
def initialPoolState : PoolState :=
  { inflight := [] }

/-- Modelled from the spec: the worker pool semantics live in the controller
runtime, outside src/; the spec describes a parallel worker pool keyed by
NodeClaim name with at most one in-flight cycle per key, starting a new
cycle only while fewer than maxConcurrentReconciles cycles are in flight. -/
inductive PoolStep : PoolState → PoolState → Prop where
  | start (s : PoolState) (k : String) :
      k ∉ s.inflight →
      s.inflight.length < registerOptions.maxConcurrentReconciles →
      PoolStep s { inflight := k :: s.inflight }
  | finish (s : PoolState) (k : String) :
      k ∈ s.inflight →
      PoolStep s { inflight := s.inflight.erase k }

/-- Pool states reachable from the initial state by pool steps. -/
inductive PoolReachable : PoolState → Prop where
  | init : PoolReachable initialPoolState
  | step (s t : PoolState) : PoolReachable s → PoolStep s t → PoolReachable t

/-- A NodeClaimSpec with the given requirements and fixed values for the
fields that carry no validation rules. -/
def mkSpec (reqs : List NodeSelectorRequirementWithMinValues) : NodeClaimSpec :=
  { taints := [], startupTaints := [], requirements := reqs
    resources := { requests := [] }
    nodeClassRef := { kind := "NodeClass", name := "default", group := "karpenter.sh" } }

/-- A sample status for concrete NodeClaims. -/
def sampleStatus : NodeClaimStatus :=
  { nodeName := "node-1", providerID := "provider-1", conditions := [] }

/-- A NodeClaim with the given name and spec. -/
def mkClaim (name : String) (spec : NodeClaimSpec) : NodeClaim :=
  { name := name, spec := spec, status := sampleStatus }

/-- Concrete requirement for the C1 counterexample: operator Gt with a single
non-negative integer value and minValues set. -/
def c1req : NodeSelectorRequirementWithMinValues :=
  { key := "k", operator := Operator.Gt, values := ["5"], minValues := some 1 }

/-- Concrete spec for the C1 counterexample. -/
def c1spec : NodeClaimSpec := mkSpec [c1req]

/-- Concrete requirement for the C5 counterexample: operator In with a
non-empty values list. -/
def c5reqA : NodeSelectorRequirementWithMinValues :=
  { key := "a", operator := Operator.In, values := ["x"], minValues := none }

/-- Second requirement for the C5 counterexample: operator In with an empty
values list, which makes validation of the whole spec fail. -/
def c5reqB : NodeSelectorRequirementWithMinValues :=
  { key := "b", operator := Operator.In, values := [], minValues := none }

/-- Concrete spec for the C5 counterexample. -/
def c5spec : NodeClaimSpec := mkSpec [c5reqA, c5reqB]

/-- Witness requirement for C1: operator In with minValues greater than the
number of values. -/
def w1req : NodeSelectorRequirementWithMinValues :=
  { key := "zone", operator := Operator.In, values := ["a"], minValues := some 3 }

/-- Witness spec for C1. -/
def w1spec : NodeClaimSpec := mkSpec [w1req]

/-- Witness requirement for C5: operator In with an empty values list. -/
def w5req : NodeSelectorRequirementWithMinValues :=
  { key := "b", operator := Operator.In, values := [], minValues := none }

/-- Witness spec for C5. -/
def w5spec : NodeClaimSpec := mkSpec [w5req]

/-- Witness requirement for C6: operator Gt with an empty values list. -/
def w6req : NodeSelectorRequirementWithMinValues :=
  { key := "cpu", operator := Operator.Gt, values := [], minValues := none }

/-- Witness spec for C6. -/
def w6spec : NodeClaimSpec := mkSpec [w6req]

/-- Witness stored NodeClaim for C7. -/
def w7stored : NodeClaim :=
  mkClaim "ng-1" (mkSpec [{ key := "zone", operator := Operator.In, values := ["a", "b"], minValues := some 2 }])

/-- Witness proposed NodeClaim for C7, with a different spec. -/
def w7proposed : NodeClaim :=
  mkClaim "ng-1" (mkSpec [{ key := "zone", operator := Operator.In, values := ["a"], minValues := none }])

/-- Witness NodeClaim for the reconciliation claims. -/
def ng1Claim : NodeClaim :=
  mkClaim "ng-1" (mkSpec [{ key := "zone", operator := Operator.In, values := ["a", "b"], minValues := some 2 }])

theorem all_false_of_mem {α : Type} {p : α → Bool} {l : List α} {r : α}
    (hmem : r ∈ l) (hp : p r = false) : l.all p = false := by
  rw [List.all_eq_false]
  exact ⟨r, hmem, by simp [hp]⟩

theorem validateSpec_false_of_all_false {spec : NodeClaimSpec}
    {p : NodeSelectorRequirementWithMinValues → Bool}
    (hrule : p = celInRule ∨ p = celGtLtRule ∨ p = celMinValuesRule)
    (h : spec.requirements.all p = false) : validateSpec spec = false := by
  unfold validateSpec validateRequirements
  rcases hrule with h1 | h1 | h1 <;> subst h1 <;> simp [h]

theorem celInRule_eq_false_iff (r : NodeSelectorRequirementWithMinValues) :
    celInRule r = false ↔ (r.operator = Operator.In ∧ r.values = []) := by
  unfold celInRule
  by_cases h : r.operator = Operator.In <;> simp [h, List.length_eq_zero]

theorem celMinValuesRule_eq_false_iff (r : NodeSelectorRequirementWithMinValues) :
    celMinValuesRule r = false ↔
      ∃ m, r.minValues = some m ∧ r.operator = Operator.In ∧ (r.values.length : Int) < m := by
  unfold celMinValuesRule
  cases hm : r.minValues with
  | none => simp
  | some m =>
    by_cases h : r.operator = Operator.In <;> simp [h]

theorem celGtLtValueOk_eq_true_iff (vals : List String) :
    celGtLtValueOk vals = true ↔
      ∃ s v, vals = [s] ∧ celStringToInt s = some v ∧ 0 ≤ v := by
  match vals with
  | [] => simp [celGtLtValueOk]
  | [a] =>
    cases h : celStringToInt a <;> simp [celGtLtValueOk, h]
  | a :: b :: t => simp [celGtLtValueOk]

/-- Claim C1 (amended): for a requirement with minValues set, the minValues
validation rule rejects it iff its operator is In and its values list has
strictly fewer than minValues elements (a requirement with minValues set and
an operator other than In is not rejected by this rule), and any such
rejection makes validation of the whole spec fail. -/
theorem minValues_rule_characterization (spec : NodeClaimSpec)
    (r : NodeSelectorRequirementWithMinValues) (m : Int)
    (hmem : r ∈ spec.requirements) (hmv : r.minValues = some m) :
    (celMinValuesRule r = false ↔
      (r.operator = Operator.In ∧ (r.values.length : Int) < m)) ∧
    (celMinValuesRule r = false → validateSpec spec = false) := by
  constructor
  · rw [celMinValuesRule_eq_false_iff]
    constructor
    · rintro ⟨m', hm', hop, hlt⟩
      rw [hmv] at hm'
      injection hm' with h
      subst h
      exact ⟨hop, hlt⟩
    · rintro ⟨hop, hlt⟩
      exact ⟨m, hmv, hop, hlt⟩
  · intro hr
    exact validateSpec_false_of_all_false (Or.inr (Or.inr rfl)) (all_false_of_mem hmem hr)

/-- Witness for C1: a requirement with operator In, one value and minValues 3
is rejected and its spec fails validation. -/
theorem minValues_rule_characterization_witness : validateSpec w1spec = false :=
  (minValues_rule_characterization w1spec w1req 3 (by decide) rfl).2 (by decide)

/-- Counterexample to claim C1 as stated: a spec whose single requirement has
minValues set and operator Gt (not In) passes validation, while the claim
says validation fails whenever the operator is not In. -/
theorem minValues_claim_counterexample :
    c1req ∈ c1spec.requirements ∧ c1req.minValues = some 1 ∧
    c1req.operator = Operator.Gt ∧ validateSpec c1spec = true := by decide

/-- Claim C5 (amended): the In-arity validation rule rejects a requirement
iff its operator is In and its values list is empty, and any such rejection
makes validation of the whole spec fail. -/
theorem in_rule_characterization (spec : NodeClaimSpec)
    (r : NodeSelectorRequirementWithMinValues) (hmem : r ∈ spec.requirements) :
    (celInRule r = false ↔ (r.operator = Operator.In ∧ r.values = [])) ∧
    (celInRule r = false → validateSpec spec = false) := by
  refine ⟨celInRule_eq_false_iff r, ?_⟩
  intro hr
  exact validateSpec_false_of_all_false (Or.inl rfl) (all_false_of_mem hmem hr)

/-- Witness for C5: a requirement with operator In and no values is rejected
and its spec fails validation. -/
theorem in_rule_characterization_witness : validateSpec w5spec = false :=
  (in_rule_characterization w5spec w5req (by decide)).2 (by decide)

/-- Counterexample to claim C5 as stated: a spec containing a requirement
with operator In and a non-empty values list fails validation (because of a
different requirement), while the claim says validation fails iff that
requirement has an empty values list. -/
theorem in_claim_counterexample :
    c5reqA ∈ c5spec.requirements ∧ c5reqA.operator = Operator.In ∧
    c5reqA.values = ["x"] ∧ validateSpec c5spec = false := by decide

/-- Claim C6: for a requirement whose operator is Gt or Lt, validation of the
spec fails unless the values list is a single element that converts to a
non-negative integer (zero included, since the rule demands the converted
value be at least 0). -/
theorem gtlt_validation_fails_unless_single_nonneg_int (spec : NodeClaimSpec)
    (r : NodeSelectorRequirementWithMinValues) (hmem : r ∈ spec.requirements)
    (hop : r.operator = Operator.Gt ∨ r.operator = Operator.Lt)
    (hbad : ¬ ∃ s v, r.values = [s] ∧ celStringToInt s = some v ∧ 0 ≤ v) :
    validateSpec spec = false := by
  have hok : celGtLtValueOk r.values = false := by
    cases hcase : celGtLtValueOk r.values
    · rfl
    · exact absurd ((celGtLtValueOk_eq_true_iff r.values).mp hcase) hbad
  have hrule : celGtLtRule r = false := by
    unfold celGtLtRule
    rw [if_pos hop, hok]
  exact validateSpec_false_of_all_false (Or.inr (Or.inl rfl)) (all_false_of_mem hmem hrule)

/-- Witness for C6: a requirement with operator Gt and an empty values list
makes validation of its spec fail. -/
theorem gtlt_validation_fails_unless_single_nonneg_int_witness :
    validateSpec w6spec = false :=
  gtlt_validation_fails_unless_single_nonneg_int w6spec w6req (by decide) (Or.inl rfl)
    (by simp [w6req])

/-- Claim C7: an update whose proposed spec differs from the stored spec is
rejected with the immutable-field error and leaves the stored NodeClaim
unchanged, while an update whose proposed spec equals the stored spec is not
rejected by the immutability rule. -/
theorem spec_immutability (stored proposed : NodeClaim) :
    (proposed.spec ≠ stored.spec →
      applyUpdate stored proposed = Except.error UpdateError.immutableField ∧
      storedAfterUpdate stored proposed = stored) ∧
    (proposed.spec = stored.spec →
      applyUpdate stored proposed = Except.ok proposed) := by
  constructor
  · intro hne
    have hrule : specImmutableRuleHolds stored.spec proposed.spec = false := by
      simp only [specImmutableRuleHolds, decide_eq_false_iff_not]
      exact hne
    refine ⟨?_, ?_⟩
    · simp [applyUpdate, hrule]
    · simp [storedAfterUpdate, applyUpdate, hrule]
  · intro heq
    simp [applyUpdate, specImmutableRuleHolds, heq]

/-- Witness for C7: a proposed NodeClaim with a changed requirements list is
rejected and the stored NodeClaim is unchanged. -/
theorem spec_immutability_witness :
    applyUpdate w7stored w7proposed = Except.error UpdateError.immutableField ∧
    storedAfterUpdate w7stored w7proposed = w7stored :=
  (spec_immutability w7stored w7proposed).1 (by decide)

/-- Claim C2: when the fetch reports not-found, the cycle issues exactly one
delete-by-name to the cluster state store (and no upsert) and returns no
error. -/
theorem reconcile_notFound_deletes_once (name : String) :
    (reconcile name GetOutcome.notFound).clusterOps = [ClusterOp.deleteNodeClaim name] ∧
    (reconcile name GetOutcome.notFound).clusterOps.count (ClusterOp.deleteNodeClaim name) = 1 ∧
    (reconcile name GetOutcome.notFound).clusterOps.all (fun op => !isUpsert op) = true ∧
    (reconcile name GetOutcome.notFound).error = none := by
  refine ⟨rfl, ?_, rfl, rfl⟩
  simp [reconcile, List.count_singleton, isNotFound]

/-- Witness for C2 at the name from the specification scenario. -/
theorem reconcile_notFound_deletes_once_witness :
    (reconcile "ng-1" GetOutcome.notFound).clusterOps = [ClusterOp.deleteNodeClaim "ng-1"] ∧
    (reconcile "ng-1" GetOutcome.notFound).clusterOps.count (ClusterOp.deleteNodeClaim "ng-1") = 1 ∧
    (reconcile "ng-1" GetOutcome.notFound).clusterOps.all (fun op => !isUpsert op) = true ∧
    (reconcile "ng-1" GetOutcome.notFound).error = none :=
  reconcile_notFound_deletes_once "ng-1"

/-- Claim C3: when the fetch fails with any error other than not-found, the
cycle returns that error and performs no cluster state mutation. -/
theorem reconcile_failure_propagates_error (name e : String) :
    (reconcile name (GetOutcome.failure e)).error = some e ∧
    (reconcile name (GetOutcome.failure e)).clusterOps = [] := by
  exact ⟨rfl, rfl⟩

/-- Witness for C3 at a concrete name and error. -/
theorem reconcile_failure_propagates_error_witness :
    (reconcile "ng-1" (GetOutcome.failure "timeout")).error = some "timeout" ∧
    (reconcile "ng-1" (GetOutcome.failure "timeout")).clusterOps = [] :=
  reconcile_failure_propagates_error "ng-1" "timeout"

/-- Claim C4: when the fetch succeeds, the cycle issues exactly one upsert
with the fetched NodeClaim, schedules a requeue after the fixed positive
stateRetryPeriod, and returns no error. -/
theorem reconcile_found_upserts_and_requeues (name : String) (nc : NodeClaim) :
    (reconcile name (GetOutcome.found nc)).clusterOps = [ClusterOp.updateNodeClaim nc] ∧
    (reconcile name (GetOutcome.found nc)).clusterOps.count (ClusterOp.updateNodeClaim nc) = 1 ∧
    (reconcile name (GetOutcome.found nc)).result.requeueAfter = some stateRetryPeriod ∧
    0 < stateRetryPeriod ∧
    (reconcile name (GetOutcome.found nc)).error = none := by
  refine ⟨rfl, ?_, rfl, by decide, rfl⟩
  simp [reconcile, List.count_singleton]

/-- Witness for C4 at a concrete name and NodeClaim. -/
theorem reconcile_found_upserts_and_requeues_witness :
    (reconcile "ng-1" (GetOutcome.found ng1Claim)).clusterOps = [ClusterOp.updateNodeClaim ng1Claim] ∧
    (reconcile "ng-1" (GetOutcome.found ng1Claim)).clusterOps.count (ClusterOp.updateNodeClaim ng1Claim) = 1 ∧
    (reconcile "ng-1" (GetOutcome.found ng1Claim)).result.requeueAfter = some stateRetryPeriod ∧
    0 < stateRetryPeriod ∧
    (reconcile "ng-1" (GetOutcome.found ng1Claim)).error = none :=
  reconcile_found_upserts_and_requeues "ng-1" ng1Claim

/-- Claim C8: whatever the fetch outcome, the only operation the cycle issues
to the resource store is the initial get by name; it never creates, updates
or deletes a NodeClaim there. -/
theorem reconcile_only_reads_resource_store (name : String) (fetch : GetOutcome) :
    (reconcile name fetch).kubeOps = [KubeOp.get name] ∧
    (reconcile name fetch).kubeOps.all (fun op => !isKubeWrite op) = true := by
  cases fetch <;> exact ⟨rfl, rfl⟩

/-- Witness for C8 at a concrete name and fetch outcome. -/
theorem reconcile_only_reads_resource_store_witness :
    (reconcile "ng-1" GetOutcome.notFound).kubeOps = [KubeOp.get "ng-1"] ∧
    (reconcile "ng-1" GetOutcome.notFound).kubeOps.all (fun op => !isKubeWrite op) = true :=
  reconcile_only_reads_resource_store "ng-1" GetOutcome.notFound

/-- Claim C10: the not-found path returns the empty result with no requeue
delay, and a requeue delay is returned only when the fetch succeeded. -/
theorem requeue_only_on_successful_fetch (name : String) :
    (reconcile name GetOutcome.notFound).result = { requeueAfter := none } ∧
    (∀ fetch : GetOutcome, (reconcile name fetch).result.requeueAfter ≠ none →
      ∃ nc, fetch = GetOutcome.found nc) := by
  refine ⟨rfl, ?_⟩
  intro fetch h
  cases fetch with
  | found nc => exact ⟨nc, rfl⟩
  | notFound => exact absurd rfl h
  | failure e => exact absurd rfl h

/-- Witness for C10: the successful-fetch cycle is the one carrying a requeue
delay. -/
theorem requeue_only_on_successful_fetch_witness :
    ∃ nc, GetOutcome.found ng1Claim = GetOutcome.found nc :=
  (requeue_only_on_successful_fetch "ng-1").2 (GetOutcome.found ng1Claim) (by decide)

/-- Claim C9: the controller is registered with MaxConcurrentReconciles 10,
and every reachable state of the worker pool has at most that many (hence at
most 10) reconciliation cycles in flight. -/
theorem bounded_concurrency (s : PoolState) (h : PoolReachable s) :
    s.inflight.length ≤ registerOptions.maxConcurrentReconciles ∧
    registerOptions.maxConcurrentReconciles = 10 := by
  refine ⟨?_, rfl⟩
  induction h with
  | init => simp [initialPoolState]
  | step s t hs hst ih =>
    cases hst with
    | start k hk hlt =>
      simp only [List.length_cons]
      omega
    | finish k hk =>
      exact le_trans (List.Sublist.length_le (List.erase_sublist k s.inflight)) ih

/-- Witness for C9 at the initial pool state. -/
theorem bounded_concurrency_witness :
    initialPoolState.inflight.length ≤ registerOptions.maxConcurrentReconciles ∧
    registerOptions.maxConcurrentReconciles = 10 :=
  bounded_concurrency initialPoolState PoolReachable.init
